import Mathlib

/-!
Verification of the Intellichem2MQTT ESP32 protocol engine.

Shallow embedding of the C sources under `main/protocol/` and the MQTT
command parsing in `main/mqtt/mqtt_task.c`:

* bytes are modelled as `Nat` values (callers of the C functions pass
  `uint8_t`, so byte-boundedness is an explicit hypothesis where it
  matters);
* `uint16_t` wraparound is modelled with `% 65536`, `uint8_t`
  truncation with `% 256`;
* C `float` fields are modelled as exact rationals (`ℚ`); the claims
  settled here depend only on control flow and on values whose float
  computations are exact at the inputs considered;
* fallible functions return `Option`/`Bool × state`.
-/

namespace Intellichem

/-! ## Protocol constants (`protocol/constants.h`, `protocol/buffer.h`) -/

def PREAMBLE_BYTE_1 : Nat := 0xFF

def PREAMBLE_BYTE_2 : Nat := 0x00

def PREAMBLE_BYTE_3 : Nat := 0xFF

def HEADER_START_BYTE : Nat := 0xA5

def HEADER_SUB_BYTE : Nat := 0x00

def PREAMBLE_LENGTH : Nat := 3

def HEADER_LENGTH : Nat := 6

def CHECKSUM_LENGTH : Nat := 2

def MIN_PACKET_SIZE : Nat := 11

def INTELLICHEM_ADDRESS_MIN : Nat := 144

def INTELLICHEM_ADDRESS_MAX : Nat := 158

def CONTROLLER_ADDRESS : Nat := 16

def ACTION_STATUS_REQUEST : Nat := 210

def ACTION_STATUS_RESPONSE : Nat := 18

def ACTION_CONFIG_COMMAND : Nat := 146

def STATUS_PAYLOAD_LENGTH : Nat := 41

def CONFIG_PAYLOAD_LENGTH : Nat := 21

def TANK_LEVEL_MAX : Nat := 7

def MAX_PACKET_SIZE : Nat := 64

def PACKET_BUFFER_CAPACITY : Nat := 512

/-! ## Frame codec (`protocol/message.c`) -/

/-- `message_calculate_checksum`: 16-bit unsigned sum of the given bytes
(the running `uint16_t` accumulator wraps, which equals the total sum
mod 2^16). -/
def message_calculate_checksum (bytes : List Nat) : Nat :=
  bytes.sum % 65536

/-- `message_total_length` from `message.h`: preamble + header + payload
+ checksum. -/
def message_total_length (payload_len : Nat) : Nat :=
  3 + 6 + payload_len + 2

/-- `message_build`: preamble, six header bytes, payload, big-endian
checksum over header + payload.  The C function takes `uint8_t`
parameters, hence the `% 256` truncations; the buffer-size check is
omitted (we model the successful path, the caller's buffer being large
enough). -/
def message_build (dest src action : Nat) (payload : List Nat) : List Nat :=
  let n := payload.length % 256
  let p := payload.take n
  let header := [HEADER_START_BYTE, HEADER_SUB_BYTE, dest % 256, src % 256, action % 256, n]
  let chk := message_calculate_checksum (header ++ p)
  [PREAMBLE_BYTE_1, PREAMBLE_BYTE_2, PREAMBLE_BYTE_3] ++ header ++ p ++ [chk / 256, chk % 256]

/-- `message_validate_checksum`: length at least 11, length at least the
total length announced by the header, and stored big-endian checksum
(last two bytes of the *passed* length) equal to the computed sum of
header + payload. -/
def message_validate_checksum (packet : List Nat) : Bool :=
  if packet.length < MIN_PACKET_SIZE then false
  else
    let payload_len := packet.getD 8 0
    let expected := message_total_length payload_len
    if packet.length < expected then false
    else
      let data_len := HEADER_LENGTH + payload_len
      let calculated := message_calculate_checksum ((packet.drop PREAMBLE_LENGTH).take data_len)
      let received := packet.getD (packet.length - 2) 0 * 256 + packet.getD (packet.length - 1) 0
      calculated == received

/-- `message_validate_structure`: length at least 11, the three preamble
bytes, and the header start byte 0xA5.  (The sub byte at offset 4 is
*not* checked.) -/
def message_validate_structure (packet : List Nat) : Bool :=
  if packet.length < MIN_PACKET_SIZE then false
  else if packet.getD 0 0 ≠ PREAMBLE_BYTE_1 ∨ packet.getD 1 0 ≠ PREAMBLE_BYTE_2 ∨
          packet.getD 2 0 ≠ PREAMBLE_BYTE_3 then false
  else if packet.getD 3 0 ≠ HEADER_START_BYTE then false
  else true

/-- `message_get_action`: byte at offset 7. -/
def message_get_action (packet : List Nat) : Nat :=
  packet.getD 7 0

/-- `message_get_source`: byte at offset 6. -/
def message_get_source (packet : List Nat) : Nat :=
  packet.getD 6 0

/-- `message_get_dest`: byte at offset 5. -/
def message_get_dest (packet : List Nat) : Nat :=
  packet.getD 5 0

/-- `message_get_payload_len`: byte at offset 8. -/
def message_get_payload_len (packet : List Nat) : Nat :=
  packet.getD 8 0

/-- `message_get_payload`: the bytes from offset 9 on. -/
def message_get_payload (packet : List Nat) : List Nat :=
  packet.drop 9

/-! ## Settings and command builder (`protocol/commands.c`) -/

/-- `intellichem_settings_t` from `commands.h`.  `ph_setpoint` is a C
float, modelled as an exact rational; the integer fields are `uint16_t`
or `uint8_t`. -/
structure IntellichemSettings where
  ph_setpoint : ℚ
  orp_setpoint : Nat
  ph_tank_level : Nat
  orp_tank_level : Nat
  calcium_hardness : Nat
  cyanuric_acid : Nat
  alkalinity : Nat
deriving Repr, DecidableEq

/-- `command_validate_ph_setpoint`: 7.0 ≤ v ≤ 7.6. -/
def command_validate_ph_setpoint (v : ℚ) : Bool :=
  decide (7 ≤ v) && decide (v ≤ 38 / 5)

/-- `command_validate_orp_setpoint`: 400 ≤ v ≤ 800. -/
def command_validate_orp_setpoint (v : Nat) : Bool :=
  decide (400 ≤ v) && decide (v ≤ 800)

/-- `command_validate_calcium_hardness`: 25 ≤ v ≤ 800. -/
def command_validate_calcium_hardness (v : Nat) : Bool :=
  decide (25 ≤ v) && decide (v ≤ 800)

/-- `command_validate_cyanuric_acid`: v ≤ 210. -/
def command_validate_cyanuric_acid (v : Nat) : Bool :=
  decide (v ≤ 210)

/-- `command_validate_alkalinity`: 25 ≤ v ≤ 800. -/
def command_validate_alkalinity (v : Nat) : Bool :=
  decide (25 ≤ v) && decide (v ≤ 800)

/-- `command_validate_tank_level`: v ≤ 7. -/
def command_validate_tank_level (v : Nat) : Bool :=
  decide (v ≤ TANK_LEVEL_MAX)

/-- `command_validate_settings`: all field validators, in source order. -/
def command_validate_settings (s : IntellichemSettings) : Bool :=
  command_validate_ph_setpoint s.ph_setpoint &&
  command_validate_orp_setpoint s.orp_setpoint &&
  command_validate_tank_level s.ph_tank_level &&
  command_validate_tank_level s.orp_tank_level &&
  command_validate_calcium_hardness s.calcium_hardness &&
  command_validate_cyanuric_acid s.cyanuric_acid &&
  command_validate_alkalinity s.alkalinity

/-- `command_build_config_payload`: on invalid settings return 0
(modelled `none`); otherwise the 21-byte payload.  `(uint16_t)(ph*100)`
is the float product truncated to an integer (exact at the rationals
considered, e.g. 7.3·100 = 730); `>> 8 & 0xFF` is `/ 256 % 256`; plain
`uint8_t` stores carry their type's `% 256`. -/
def command_build_config_payload (s : IntellichemSettings) : Option (List Nat) :=
  if ¬ command_validate_settings s then none
  else
    let ph_value := (⌊s.ph_setpoint * 100⌋).toNat
    some [ph_value / 256 % 256, ph_value % 256,
          s.orp_setpoint / 256 % 256, s.orp_setpoint % 256,
          s.ph_tank_level % 256,
          s.orp_tank_level % 256,
          s.calcium_hardness / 256 % 256, s.calcium_hardness % 256,
          0,
          s.cyanuric_acid % 256,
          s.alkalinity / 256 % 256,
          0,
          s.alkalinity % 256,
          0, 0, 0, 0, 0, 0, 0, 0]

/-- `command_settings_init`: the default settings record. -/
def command_settings_init : IntellichemSettings :=
  ⟨36 / 5, 650, 7, 7, 300, 30, 80⟩

/-! ## State model (`models/state.h`) -/

/-- `dosing_status_t`: Dosing = 0, Monitoring = 1, Mixing = 2 (the C
enum, kept as its integer value). -/
def DOSING_STATUS_DOSING : Nat := 0

def DOSING_STATUS_MONITORING : Nat := 1

def DOSING_STATUS_MIXING : Nat := 2

/-- `chemical_state_t`: per-chemical (pH or ORP) measurement state.
The C floats `level`/`setpoint` are modelled as exact rationals. -/
structure ChemicalState where
  level : ℚ
  setpoint : ℚ
  dose_time : Nat
  dose_volume : Nat
  tank_level : Nat
  dosing_status : Nat
  is_dosing : Bool
deriving Repr, DecidableEq

/-- `alarms_t`. -/
structure Alarms where
  flow : Bool
  ph_tank_empty : Bool
  orp_tank_empty : Bool
  probe_fault : Bool
deriving Repr, DecidableEq

/-- `warnings_t` (`water_chemistry` keeps the C enum's integer value:
0 = OK, 1 = Corrosive, 2 = Scaling). -/
structure Warnings where
  ph_lockout : Bool
  ph_daily_limit : Bool
  orp_daily_limit : Bool
  invalid_setup : Bool
  chlorinator_comm_error : Bool
  water_chemistry : Nat
deriving Repr, DecidableEq

/-- `intellichem_state_t`. -/
structure IntellichemState where
  address : Nat
  ph : ChemicalState
  orp : ChemicalState
  lsi : ℚ
  calcium_hardness : Nat
  cyanuric_acid : Nat
  alkalinity : Nat
  salt_level : Nat
  temperature : Nat
  firmware : String
  alarms : Alarms
  warnings : Warnings
  flow_detected : Bool
  comms_lost : Bool
  last_update_ms : Int
deriving Repr, DecidableEq

/-- `intellichem_state_init`: the defaults written by the C initializer
(float literals 7.2f / 650.0f as exact rationals). -/
def intellichem_state_init : IntellichemState where
  address := 144
  ph := ⟨0, 36 / 5, 0, 0, 0, DOSING_STATUS_MONITORING, false⟩
  orp := ⟨0, 650, 0, 0, 0, DOSING_STATUS_MONITORING, false⟩
  lsi := 0
  calcium_hardness := 0
  cyanuric_acid := 0
  alkalinity := 0
  salt_level := 0
  temperature := 0
  firmware := ""
  alarms := ⟨false, false, false, false⟩
  warnings := ⟨false, false, false, false, false, 0⟩
  flow_detected := true
  comms_lost := false
  last_update_ms := 0

/-! ## Status parser (`protocol/parser.c`) -/

/-- `be16` helper in `parser.c`: big-endian 16-bit value at a payload
offset (payload bytes are `uint8_t`, hence the value is `hi*256+lo`). -/
def parser_be16 (payload : List Nat) (offset : Nat) : Nat :=
  payload.getD offset 0 * 256 + payload.getD (offset + 1) 0

/-- `parse_lsi`: sign-magnitude byte, bit 7 set means negative. -/
def parse_lsi (b : Nat) : ℚ :=
  if b.testBit 7 then -((256 - b : ℚ) / 100) else (b : ℚ) / 100

/-- `parse_tank_level`: raw 0 stays 0, raw > 1 maps to raw − 1, raw 1
maps to 0.  Note: there is no clamp, so raw ≥ 8 yields a result > 6. -/
def parse_tank_level (raw : Nat) : Nat :=
  if raw = 0 then 0
  else if raw > 1 then raw - 1 else 0

/-- `parse_dosing_status`: clamp the 2-bit field to 0..2. -/
def parse_dosing_status (raw : Nat) : Nat :=
  if raw > 2 then 2 else raw

/-- `%03d` of `snprintf`: decimal with zero padding to three digits
(minor version is a byte, so at most three digits). -/
def format_minor (n : Nat) : String :=
  if n < 10 then "00" ++ toString n
  else if n < 100 then "0" ++ toString n
  else toString n

/-- The firmware string `snprintf(.., "%d.%03d", payload[37],
payload[36])`. -/
def format_firmware (major minor : Nat) : String :=
  toString major ++ "." ++ format_minor minor

/-- `parser_parse_payload`: decode the 41-byte status payload into a
fresh state (the C function `intellichem_state_init`s the caller's
record and then assigns every field; modelled as building the record
from `intellichem_state_init`).  Rejects—leaving the state record
untouched—when `payload_len < 41`.  Bit masks are modelled
arithmetically: `& 0x03` is `% 4`, `(x & 0x0C) >> 2` is `x / 4 % 4`,
`(x & 0x30) >> 4` is `x / 16 % 4`, `(x & 0xC0) >> 6` is `x / 64 % 4`,
and single-bit tests use `Nat.testBit`. -/
def parser_parse_payload (payload : List Nat) (payload_len : Nat) (address : Nat)
    (state : IntellichemState) : Bool × IntellichemState :=
  if payload_len < STATUS_PAYLOAD_LENGTH then (false, state)
  else
    let g := fun i => payload.getD i 0
    let dosing_byte := g 34
    let ph_doser_type := dosing_byte % 4
    let orp_doser_type := dosing_byte / 4 % 4
    let ph_dosing_raw := dosing_byte / 16 % 4
    let orp_dosing_raw := dosing_byte / 64 % 4
    let ph_status := parse_dosing_status ph_dosing_raw
    let orp_status := parse_dosing_status orp_dosing_raw
    let alarm_byte := g 32
    let warning_byte := g 33
    let water_chem := if g 38 > 2 then 2 else g 38
    let status_byte := g 35
    let flowAlarm := alarm_byte.testBit 0
    (true,
     { intellichem_state_init with
       address := address
       ph := { level := (parser_be16 payload 0 : ℚ) / 100
               setpoint := (parser_be16 payload 4 : ℚ) / 100
               dose_time := parser_be16 payload 10
               dose_volume := parser_be16 payload 16
               tank_level := parse_tank_level (g 20)
               dosing_status := ph_status
               is_dosing := ph_status == DOSING_STATUS_DOSING && ph_doser_type ≠ 0 }
       orp := { level := (parser_be16 payload 2 : ℚ)
                setpoint := (parser_be16 payload 6 : ℚ)
                dose_time := parser_be16 payload 14
                dose_volume := parser_be16 payload 18
                tank_level := parse_tank_level (g 21)
                dosing_status := orp_status
                is_dosing := orp_status == DOSING_STATUS_DOSING && orp_doser_type ≠ 0 }
       lsi := parse_lsi (g 22)
       calcium_hardness := parser_be16 payload 23
       cyanuric_acid := g 26
       alkalinity := parser_be16 payload 27
       salt_level := g 29 * 50
       temperature := g 31
       alarms := { flow := flowAlarm
                   ph_tank_empty := alarm_byte.testBit 5
                   orp_tank_empty := alarm_byte.testBit 6
                   probe_fault := alarm_byte.testBit 7 }
       warnings := { ph_lockout := warning_byte.testBit 0
                     ph_daily_limit := warning_byte.testBit 1
                     orp_daily_limit := warning_byte.testBit 2
                     invalid_setup := warning_byte.testBit 3
                     chlorinator_comm_error := warning_byte.testBit 4
                     water_chemistry := water_chem }
       firmware := format_firmware (g 37) (g 36)
       comms_lost := status_byte.testBit 7
       flow_detected := !flowAlarm })

/-- `parser_parse_status`: size, checksum, action, source-range and
payload-length guards, then `parser_parse_payload`.  (The C NULL
checks have no counterpart in the model; the `payload == NULL` branch
is unreachable.)  Note: `message_validate_structure` is *not* called
anywhere on this path. -/
def parser_parse_status (packet : List Nat) (state : IntellichemState) :
    Bool × IntellichemState :=
  if packet.length < MIN_PACKET_SIZE then (false, state)
  else if ¬ message_validate_checksum packet then (false, state)
  else if message_get_action packet ≠ ACTION_STATUS_RESPONSE then (false, state)
  else if message_get_source packet < INTELLICHEM_ADDRESS_MIN ∨
          INTELLICHEM_ADDRESS_MAX < message_get_source packet then (false, state)
  else if message_get_payload_len packet < STATUS_PAYLOAD_LENGTH then (false, state)
  else
    parser_parse_payload (message_get_payload packet) (message_get_payload_len packet)
      (message_get_source packet) state

/-! ## Stream resynchronizer (`protocol/buffer.c`)

The C ring buffer (`data[512]`, `head`, `tail`, `count`) is modelled by
its logical content: the list of buffered bytes, oldest first.  All C
accesses (`buffer_peek_at`, `buffer_copy_out`, `buffer_discard`,
appends) stay inside the `count` window, so the list view is exact. -/

/-- `buffer_stats_t`. -/
structure BufferStats where
  packets_received : Nat
  bytes_received : Nat
  invalid_checksums : Nat
  buffer_overflows : Nat
  preamble_syncs : Nat
deriving Repr, DecidableEq

/-- `packet_buffer_t` (logical view). -/
structure PacketBuffer where
  data : List Nat
  stats : BufferStats
deriving Repr, DecidableEq

/-- `buffer_init`: empty content, zeroed statistics. -/
def buffer_init_state : PacketBuffer :=
  ⟨[], ⟨0, 0, 0, 0, 0⟩⟩

/-- The trailing `n` elements of a list (what the overflow policy
keeps). -/
def lastN (n : Nat) (l : List Nat) : List Nat :=
  l.drop (l.length - n)

/-- One step of the byte-append loop in `buffer_add_bytes`: append when
below capacity, otherwise overwrite the oldest byte. -/
def buffer_push_byte (acc : List Nat) (b : Nat) : List Nat :=
  if acc.length < PACKET_BUFFER_CAPACITY then acc ++ [b] else acc.tail ++ [b]

/-- `buffer_add_bytes`: count the bytes, apply the overflow policy
(when the chunk would exceed 512 bytes: bump the overflow counter and,
if more than 64 bytes are buffered, keep only the most recent 64), then
append byte by byte with oldest-byte overwrite at capacity. -/
def buffer_add_bytes (buf : PacketBuffer) (d : List Nat) : PacketBuffer :=
  if d.length = 0 then buf
  else
    let stats := { buf.stats with bytes_received := buf.stats.bytes_received + d.length }
    let overflow := buf.data.length + d.length > PACKET_BUFFER_CAPACITY
    let stats := if overflow then
        { stats with buffer_overflows := stats.buffer_overflows + 1 } else stats
    let start := if overflow ∧ buf.data.length > 64 then
        buf.data.drop (buf.data.length - 64) else buf.data
    ⟨d.foldl buffer_push_byte start, stats⟩

/-- The preamble test of `buffer_find_preamble` at one offset. -/
def preamble_at (data : List Nat) (i : Nat) : Bool :=
  data.getD i 0 == PREAMBLE_BYTE_1 && data.getD (i + 1) 0 == PREAMBLE_BYTE_2 &&
  data.getD (i + 2) 0 == PREAMBLE_BYTE_3

/-- The scan loop of `buffer_find_preamble` (`for i = start; i ≤ count−3`),
written with fuel; `buffer_find_preamble` supplies enough fuel for the
full scan. -/
def find_preamble_go (data : List Nat) : Nat → Nat → Option Nat
  | _, 0 => none
  | i, fuel + 1 =>
    if i + 3 > data.length then none
    else if preamble_at data i then some i
    else find_preamble_go data (i + 1) fuel

/-- `buffer_find_preamble`: offset of the first preamble at or after
`start`, if any. -/
def buffer_find_preamble (data : List Nat) (start : Nat) : Option Nat :=
  if data.length < start + 3 then none
  else find_preamble_go data start (data.length - start)

/-- Outcome of one pass through `buffer_get_packet`'s `while` loop:
either the function returns (`done`), or a C `continue` re-enters the
loop with the updated buffer (`again`). -/
inductive StepResult where
  | done (r : Option (List Nat)) (buf : PacketBuffer)
  | again (buf : PacketBuffer)
deriving Repr, DecidableEq

/-- The tail of the loop body after the preamble search and discard:
re-check the minimum size, validate the header start byte, bound the
packet length, wait for a complete packet, check the output buffer,
copy out and validate the checksum. -/
def buffer_get_packet_attempt (outSize : Nat) (buf : PacketBuffer) : StepResult :=
  if buf.data.length < MIN_PACKET_SIZE then .done none buf
  else if buf.data.getD 3 0 ≠ HEADER_START_BYTE then
    .again { buf with data := buf.data.drop 1 }
  else
    let packet_len := message_total_length (buf.data.getD 8 0)
    if packet_len > MAX_PACKET_SIZE then .again { buf with data := buf.data.drop 1 }
    else if buf.data.length < packet_len then .done none buf
    else if outSize < packet_len then .done none buf
    else
      let pkt := buf.data.take packet_len
      if message_validate_checksum pkt then
        .done (some pkt)
          { data := buf.data.drop packet_len,
            stats := { buf.stats with
                       packets_received := buf.stats.packets_received + 1 } }
      else
        .again { data := buf.data.drop 1,
                 stats := { buf.stats with
                            invalid_checksums := buf.stats.invalid_checksums + 1 } }

/-- One pass through the `while` loop of `buffer_get_packet`: the loop
condition (at least 11 bytes), the preamble search (discarding all but
the trailing two bytes when none is found, or the bytes preceding the
preamble — counted as a resync — when one is), then the tail above. -/
def buffer_get_packet_step (outSize : Nat) (buf : PacketBuffer) : StepResult :=
  if buf.data.length < MIN_PACKET_SIZE then .done none buf
  else
    match buffer_find_preamble buf.data 0 with
    | none =>
      if buf.data.length > 2 then
        .done none { buf with data := buf.data.drop (buf.data.length - 2) }
      else .done none buf
    | some idx =>
      let buf := if idx > 0 then
          { data := buf.data.drop idx,
            stats := { buf.stats with preamble_syncs := buf.stats.preamble_syncs + 1 } }
        else buf
      buffer_get_packet_attempt outSize buf

/-- The loop of `buffer_get_packet`, with fuel.  Each `again` re-entry
discards at least one byte, so the fuel `data.length + 1` supplied by
`buffer_get_packet` always outlasts the C loop. -/
def buffer_get_packet_go (outSize : Nat) : Nat → PacketBuffer → Option (List Nat) × PacketBuffer
  | 0, buf => (none, buf)
  | fuel + 1, buf =>
    match buffer_get_packet_step outSize buf with
    | .done r b => (r, b)
    | .again b => buffer_get_packet_go outSize fuel b

/-- `buffer_get_packet` (= the spec's `try_take_frame`): extract the
next checksum-valid packet, resynchronizing past noise. -/
def buffer_get_packet (buf : PacketBuffer) (outSize : Nat) :
    Option (List Nat) × PacketBuffer :=
  buffer_get_packet_go outSize (buf.data.length + 1) buf

/-- `buffer_pending_bytes`. -/
def buffer_pending_bytes (buf : PacketBuffer) : Nat :=
  buf.data.length

/-! ## MQTT command parsing (`mqtt/mqtt_task.c`) -/

/-- `serial_command_t`'s type/value pair as parsed by
`parse_mqtt_command` (command types from `serial/serial_task.h`). -/
inductive MqttCmd where
  | setPhSetpoint (v : ℚ)
  | setOrpSetpoint (v : Nat)
  | setPhDosing (enabled : Bool)
  | setOrpDosing (enabled : Bool)
  | setCalciumHardness (v : Nat)
  | setCyanuricAcid (v : Nat)
  | setAlkalinity (v : Nat)
deriving Repr, DecidableEq

/-- Value of a decimal digit run (most significant first). -/
def digits_val (cs : List Char) : Nat :=
  cs.foldl (fun a c => a * 10 + (c.toNat - 48)) 0

/-- Modelled from libc: `atoi` on the decimal subset — skip leading
whitespace, optional sign, then leading digits (0 when none). -/
def atoi_model (s : String) : Int :=
  let cs := s.data.dropWhile Char.isWhitespace
  match cs with
  | '-' :: rest => -(digits_val (rest.takeWhile Char.isDigit) : Int)
  | '+' :: rest => (digits_val (rest.takeWhile Char.isDigit) : Int)
  | _ => (digits_val (cs.takeWhile Char.isDigit) : Int)

/-- Modelled from libc: `strtof` on the plain decimal subset — skip
leading whitespace, optional sign, integer digits, optional fraction —
as an exact rational. -/
def strtof_model (s : String) : ℚ :=
  let cs := s.data.dropWhile Char.isWhitespace
  let signed : List Char → ℚ := fun t =>
    let intPart := t.takeWhile Char.isDigit
    let rest := t.dropWhile Char.isDigit
    let frac := match rest with
      | '.' :: fs => fs.takeWhile Char.isDigit
      | _ => []
    (digits_val intPart : ℚ) + (digits_val frac : ℚ) / ((10 : ℚ) ^ frac.length)
  match cs with
  | '-' :: rest => -(signed rest)
  | '+' :: rest => signed rest
  | _ => signed cs

/-- ASCII `tolower`. -/
def char_to_lower (c : Char) : Char :=
  if 'A' ≤ c ∧ c ≤ 'Z' then Char.ofNat (c.toNat + 32) else c

/-- `strcasecmp(a, b) == 0`. -/
def str_ci_eq (a b : String) : Bool :=
  a.data.map char_to_lower == b.data.map char_to_lower

/-- The characters after the last `'/'`, or none when there is no
slash. -/
def after_last_slash : List Char → Option (List Char)
  | [] => none
  | c :: rest =>
    match after_last_slash rest with
    | some r => some r
    | none => if c = '/' then some rest else none

/-- `strrchr(topic, '/')` + 1: the segment after the last slash, or
none when the topic has no slash. -/
def mqtt_command_name (topic : String) : Option String :=
  (after_last_slash topic.data).map fun cs => ⟨cs⟩

/-- The ON/1/true test shared by the two dosing branches of
`parse_mqtt_command` (each a disjunction of `strcasecmp`s). -/
def mqtt_dosing_enabled_of (data : String) : Bool :=
  str_ci_eq data "ON" || str_ci_eq data "1" || str_ci_eq data "true"

/-- `parse_mqtt_command`: guard the topic/payload lengths (buffers of
128 and 32 bytes), take the topic's last segment as the command name,
and dispatch.  Numeric commands parse with `atoi`/`strtof` (with the C
casts' truncation) and are rejected when out of range; the two
`dosing_enabled` commands *always* succeed, mapping any payload other
than ON/1/true (case-insensitive) to disabled.  `none` models a
`false` return (command discarded, nothing forwarded). -/
def parse_mqtt_command (topic data : String) : Option MqttCmd :=
  if topic.length = 0 ∨ data.length = 0 then none
  else if 128 ≤ topic.length then none
  else if 32 ≤ data.length then none
  else
    match mqtt_command_name topic with
    | none => none
    | some name =>
      if name = "ph_setpoint" then
        let v := strtof_model data
        if command_validate_ph_setpoint v then some (.setPhSetpoint v) else none
      else if name = "orp_setpoint" then
        let v := ((atoi_model data).emod 65536).toNat
        if command_validate_orp_setpoint v then some (.setOrpSetpoint v) else none
      else if name = "ph_dosing_enabled" then
        some (.setPhDosing (mqtt_dosing_enabled_of data))
      else if name = "orp_dosing_enabled" then
        some (.setOrpDosing (mqtt_dosing_enabled_of data))
      else if name = "calcium_hardness" then
        let v := ((atoi_model data).emod 65536).toNat
        if command_validate_calcium_hardness v then some (.setCalciumHardness v) else none
      else if name = "cyanuric_acid" then
        let v := ((atoi_model data).emod 256).toNat
        if command_validate_cyanuric_acid v then some (.setCyanuricAcid v) else none
      else if name = "alkalinity" then
        let v := ((atoi_model data).emod 65536).toNat
        if command_validate_alkalinity v then some (.setAlkalinity v) else none
      else none

/-! ## Concrete test vectors

Frames used by counterexamples and witnesses.  Each is a complete
on-wire buffer: preamble, header (`A5 00 dest src action len`),
payload, big-endian checksum. -/

/-- A checksum-valid status frame from source 144 whose payload byte 20
(the raw pH tank level) is 255; checksum 0xA5+0x10+0x90+0x12+0x29+0xFF
= 0x027F. -/
def status_frame_tank_255 : List Nat :=
  [255, 0, 255, 165, 0, 16, 144, 18, 41] ++
    (List.range 41).map (fun i => if i = 20 then 255 else 0) ++ [2, 127]

/-- A checksum-valid status frame (all-zero payload, source 145,
checksum 0x0181) whose first four bytes are zero instead of the
preamble and header start byte. -/
def status_frame_no_preamble : List Nat :=
  [0, 0, 0, 0, 0, 16, 145, 18, 41] ++ List.replicate 41 0 ++ [0, 220]

/-- A fully valid status frame: preamble, source 145, action 18,
41-byte all-zero payload, checksum 0x0181. -/
def status_frame_basic : List Nat :=
  [255, 0, 255, 165, 0, 16, 145, 18, 41] ++ List.replicate 41 0 ++ [1, 129]

/-- The 11-byte status request to address 144 (as built by
`message_build 144 16 210 []`). -/
def frame_request_144 : List Nat :=
  [255, 0, 255, 165, 0, 144, 16, 210, 0, 2, 23]

/-- A structurally and checksum-valid frame of total length 65 (payload
length 54, checksum 0x018D) — longer than `MAX_PACKET_SIZE`. -/
def frame_payload_54 : List Nat :=
  [255, 0, 255, 165, 0, 16, 144, 18, 54] ++ List.replicate 54 0 ++ [1, 141]

/-- A frame that passes structure and checksum validation but has a
nonzero header sub byte (offset 4): `FF 00 FF A5 01 00 00 00 00 00 A6`. -/
def frame_sub_byte_1 : List Nat :=
  [255, 0, 255, 165, 1, 0, 0, 0, 0, 0, 166]

/-! ## Theorems -/

/-- C1 counterexample: building the status request (dest 144, src 16,
action 210, empty payload) does *not* produce the spec's byte string
`FF 00 FF A5 00 90 10 D2 00 01 23`, and the checksum of the six header
bytes is not 0x0127: the spec's arithmetic is wrong
(0xA5+0x00+0x90+0x10+0xD2+0x00 = 0x0217). -/
theorem c1_counterexample :
    message_build 144 16 210 [] ≠ [255, 0, 255, 165, 0, 144, 16, 210, 0, 1, 35] ∧
    message_calculate_checksum [165, 0, 144, 16, 210, 0] ≠ 0x0127 := by
  decide

/-- C1 (amended): building a status request with dest 144, src 16,
action 210 and empty payload returns the 11-byte buffer
`FF 00 FF A5 00 90 10 D2 00 02 17` — preamble, six header bytes, and
big-endian stored checksum 0x0217 (= 0xA5+0x00+0x90+0x10+0xD2+0x00). -/
theorem c1_build_status_request :
    message_build 144 16 210 [] = [255, 0, 255, 165, 0, 144, 16, 210, 0, 2, 23] ∧
    (message_build 144 16 210 []).length = 11 ∧
    message_calculate_checksum [165, 0, 144, 16, 210, 0] = 0x0217 := by
  decide

/-- C6: encoding the settings record {ph 7.3, orp 700, tanks 5/6,
calcium 300, cya 30, alkalinity 80} succeeds with exactly the 21-byte
payload `02 DA 02 BC 05 06 01 2C 00 1E 00 00 50 00 ... 00`: alkalinity
split with its high byte at offset 10 and low byte at offset 12, and
every reserved byte (8, 11, 13..20) zero. -/
theorem c6_config_payload_bytes :
    command_build_config_payload ⟨73 / 10, 700, 5, 6, 300, 30, 80⟩ =
      some [2, 218, 2, 188, 5, 6, 1, 44, 0, 30, 0, 0, 80, 0, 0, 0, 0, 0, 0, 0, 0] := by
  norm_num [command_build_config_payload, command_validate_settings,
    command_validate_ph_setpoint, command_validate_orp_setpoint, command_validate_tank_level,
    command_validate_calcium_hardness, command_validate_cyanuric_acid,
    command_validate_alkalinity, TANK_LEVEL_MAX]
  omega

/-- C5: the encoder rejects a settings record iff at least one field is
out of range — `command_build_config_payload` returns 0 (modelled
`none`) exactly when ph_setpoint ∉ [7.0, 7.6] or orp_setpoint ∉
[400, 800] or a tank level > 7 or calcium_hardness ∉ [25, 800] or
cyanuric_acid > 210 or alkalinity ∉ [25, 800], and otherwise returns
the 21-byte payload. -/
theorem c5_encoder_rejects_iff (s : IntellichemSettings) :
    (command_build_config_payload s = none ↔
      (s.ph_setpoint < 7 ∨ 38 / 5 < s.ph_setpoint ∨
       s.orp_setpoint < 400 ∨ 800 < s.orp_setpoint ∨
       7 < s.ph_tank_level ∨ 7 < s.orp_tank_level ∨
       s.calcium_hardness < 25 ∨ 800 < s.calcium_hardness ∨
       210 < s.cyanuric_acid ∨
       s.alkalinity < 25 ∨ 800 < s.alkalinity)) ∧
    (∀ p, command_build_config_payload s = some p → p.length = 21) := by
  have hval : command_validate_settings s = true ↔
      ((7 ≤ s.ph_setpoint ∧ s.ph_setpoint ≤ 38 / 5) ∧
       (400 ≤ s.orp_setpoint ∧ s.orp_setpoint ≤ 800) ∧
       s.ph_tank_level ≤ 7 ∧ s.orp_tank_level ≤ 7 ∧
       (25 ≤ s.calcium_hardness ∧ s.calcium_hardness ≤ 800) ∧
       s.cyanuric_acid ≤ 210 ∧
       (25 ≤ s.alkalinity ∧ s.alkalinity ≤ 800)) := by
    simp [command_validate_settings, command_validate_ph_setpoint,
      command_validate_orp_setpoint, command_validate_tank_level,
      command_validate_calcium_hardness, command_validate_cyanuric_acid,
      command_validate_alkalinity, TANK_LEVEL_MAX, and_assoc]
  constructor
  · have h1 : command_build_config_payload s = none ↔
        ¬ command_validate_settings s = true := by
      rw [command_build_config_payload]
      split <;> simp_all
    rw [h1, hval]
    simp only [not_and_or, not_le, or_assoc]
  · intro p hp
    rw [command_build_config_payload] at hp
    split at hp
    · exact absurd hp (by simp)
    · simp only [Option.some.injEq] at hp
      subst hp
      rfl

/-- C5 witness: the default settings record is in range, so the encoder
produces a 21-byte payload for it. -/
theorem c5_encoder_rejects_iff_witness :
    ∃ p, command_build_config_payload command_settings_init = some p ∧ p.length = 21 := by
  have hbuild : command_build_config_payload command_settings_init =
      some [2, 208, 2, 138, 7, 7, 1, 44, 0, 30, 0, 0, 80, 0, 0, 0, 0, 0, 0, 0, 0] := by
    norm_num [command_build_config_payload, command_settings_init, command_validate_settings,
      command_validate_ph_setpoint, command_validate_orp_setpoint, command_validate_tank_level,
      command_validate_calcium_hardness, command_validate_cyanuric_acid,
      command_validate_alkalinity, TANK_LEVEL_MAX]
    omega
  exact ⟨_, hbuild, (c5_encoder_rejects_iff command_settings_init).2 _ hbuild⟩

/-- C10: whenever `parser_parse_status` rejects a packet (short packet,
bad checksum, wrong action, out-of-range source, or short payload), the
caller's state record is returned completely unmodified — the decoder
performs all checks before its first write.  (The C NULL-argument
rejection has no counterpart in the model.) -/
theorem c10_reject_leaves_state (packet : List Nat) (st : IntellichemState)
    (h : (parser_parse_status packet st).1 = false) :
    (parser_parse_status packet st).2 = st := by
  have hp : ∀ (p : List Nat) (n a : Nat),
      (parser_parse_payload p n a st).1 = false → (parser_parse_payload p n a st).2 = st := by
    intro p n a hf
    rw [parser_parse_payload] at hf ⊢
    by_cases hn : n < STATUS_PAYLOAD_LENGTH
    · rw [if_pos hn]
    · rw [if_neg hn] at hf
      exact absurd hf (by simp)
  unfold parser_parse_status at h ⊢
  split_ifs at h ⊢ <;> first | rfl | exact hp _ _ _ h

/-- C10 witness: the empty packet is rejected and leaves the default
state record unchanged. -/
theorem c10_reject_leaves_state_witness :
    (parser_parse_status [] intellichem_state_init).1 = false ∧
    (parser_parse_status [] intellichem_state_init).2 = intellichem_state_init :=
  ⟨by decide, c10_reject_leaves_state [] intellichem_state_init (by decide)⟩

/-- C9 counterexample: for the `ph_dosing_enabled` command topic, the
payload `banana` — outside the ON/OFF/true/false/1/0 grammar — is *not*
rejected: `parse_mqtt_command` accepts it (returning true) and maps it
to disabled, so the claim that every payload outside the grammar makes
the parse fail is false. -/
theorem c9_counterexample :
    parse_mqtt_command "home/intellichem/set/ph_dosing_enabled" "banana" =
      some (MqttCmd.setPhDosing false) := by
  decide

/-- C9 (amended): for the `ph_dosing_enabled` and `orp_dosing_enabled`
command topics, `parse_mqtt_command` accepts *every* payload (within
the 1..31-byte payload buffer bound): it returns true with enabled iff
the payload is ON, 1 or true case-insensitively; any other payload
(OFF, false, 0, or arbitrary text) is mapped to disabled rather than
discarded. -/
theorem c9_dosing_topics_accept_all (topic data : String)
    (h1 : 0 < topic.length) (h2 : topic.length < 128)
    (h3 : 0 < data.length) (h4 : data.length < 32) :
    (mqtt_command_name topic = some "ph_dosing_enabled" →
      parse_mqtt_command topic data =
        some (MqttCmd.setPhDosing (mqtt_dosing_enabled_of data))) ∧
    (mqtt_command_name topic = some "orp_dosing_enabled" →
      parse_mqtt_command topic data =
        some (MqttCmd.setOrpDosing (mqtt_dosing_enabled_of data))) := by
  constructor <;> intro hname <;>
    · unfold parse_mqtt_command
      rw [if_neg (by omega), if_neg (by omega), if_neg (by omega), hname]
      simp

/-- C9 witness: the grammar payload `OFF` on the pH topic parses to
disabled, and `TrUe` on the ORP topic parses to enabled. -/
theorem c9_dosing_topics_accept_all_witness :
    parse_mqtt_command "home/intellichem/set/ph_dosing_enabled" "OFF" =
      some (MqttCmd.setPhDosing false) ∧
    parse_mqtt_command "home/intellichem/set/orp_dosing_enabled" "TrUe" =
      some (MqttCmd.setOrpDosing true) :=
  ⟨((c9_dosing_topics_accept_all "home/intellichem/set/ph_dosing_enabled" "OFF"
      (by decide) (by decide) (by decide) (by decide)).1 (by decide)).trans (by decide),
   ((c9_dosing_topics_accept_all "home/intellichem/set/orp_dosing_enabled" "TrUe"
      (by decide) (by decide) (by decide) (by decide)).2 (by decide)).trans (by decide)⟩

/-- A checksum-valid packet is at least `MIN_PACKET_SIZE` bytes long. -/
theorem validate_checksum_min_length (p : List Nat)
    (h : message_validate_checksum p = true) : ¬ p.length < MIN_PACKET_SIZE := by
  intro hlt
  rw [message_validate_checksum, if_pos hlt] at h
  exact Bool.noConfusion h

/-- C4 counterexample: a frame whose first four bytes are zero — hence
failing `message_validate_structure` — but whose checksum, action,
source and payload length are in order is *accepted* by
`parser_parse_status`, so acceptance is not equivalent to the
conjunction that includes structural validation. -/
theorem c4_counterexample :
    (parser_parse_status status_frame_no_preamble intellichem_state_init).1 = true ∧
    message_validate_structure status_frame_no_preamble = false := by
  decide

/-- C4 (amended): `parser_parse_status` accepts a frame iff it passes
*checksum* validation (which includes the minimum-length check), its
action byte is 18, its source is in 144..158, and its payload length is
at least 41.  Structural validation (preamble / header start byte) is
not performed on this path. -/
theorem c4_parse_status_accept_iff (packet : List Nat) (st : IntellichemState) :
    (parser_parse_status packet st).1 = true ↔
      (message_validate_checksum packet = true ∧
       message_get_action packet = 18 ∧
       144 ≤ message_get_source packet ∧ message_get_source packet ≤ 158 ∧
       41 ≤ message_get_payload_len packet) := by
  rw [parser_parse_status]
  by_cases h1 : packet.length < MIN_PACKET_SIZE
  · rw [if_pos h1]
    exact iff_of_false (by simp) fun hr => validate_checksum_min_length packet hr.1 h1
  rw [if_neg h1]
  by_cases h2 : message_validate_checksum packet = true
  · rw [if_neg (not_not_intro h2)]
    by_cases h3 : message_get_action packet = 18
    · rw [if_neg (by simp [ACTION_STATUS_RESPONSE, h3])]
      by_cases h4 : 144 ≤ message_get_source packet ∧ message_get_source packet ≤ 158
      · rw [if_neg (by simp only [INTELLICHEM_ADDRESS_MIN, INTELLICHEM_ADDRESS_MAX]; omega)]
        by_cases h5 : 41 ≤ message_get_payload_len packet
        · have h5' : ¬ message_get_payload_len packet < STATUS_PAYLOAD_LENGTH := by
            simp only [STATUS_PAYLOAD_LENGTH]; omega
          rw [if_neg h5', parser_parse_payload, if_neg h5']
          exact iff_of_true rfl ⟨h2, h3, h4.1, h4.2, h5⟩
        · rw [if_pos (by simp only [STATUS_PAYLOAD_LENGTH]; omega)]
          exact iff_of_false (by simp) fun hr => h5 hr.2.2.2.2
      · rw [if_pos (by simp only [INTELLICHEM_ADDRESS_MIN, INTELLICHEM_ADDRESS_MAX]; omega)]
        exact iff_of_false (by simp) fun hr => h4 ⟨hr.2.2.1, hr.2.2.2.1⟩
    · rw [if_pos (by simpa [ACTION_STATUS_RESPONSE] using h3)]
      exact iff_of_false (by simp) fun hr => h3 hr.2.1
  · rw [if_pos h2]
    exact iff_of_false (by simp) fun hr => h2 hr.1

/-- The tank-level mapping stays at most 6 when the raw byte is at most
7 (the values the device protocol defines). -/
theorem parse_tank_level_le_six (r : Nat) (h : r ≤ 7) : parse_tank_level r ≤ 6 := by
  unfold parse_tank_level
  split_ifs <;> omega

/-- C2 counterexample: a checksum-valid status frame whose raw pH
tank-level byte (payload offset 20) is 255 is accepted by the decoder,
and the resulting record has `ph.tank_level = 254 > 6` — the bound does
not hold for all 256 raw byte values, because `parse_tank_level` never
clamps. -/
theorem c2_counterexample :
    (parser_parse_status status_frame_tank_255 intellichem_state_init).1 = true ∧
    (parser_parse_status status_frame_tank_255 intellichem_state_init).2.ph.tank_level
      = 254 := by
  decide

/-- C2 (amended): every frame accepted by the status decoder yields a
record with address ∈ 144..158 (unconditionally); and its pH/ORP tank
levels are at most 6 provided the raw tank-level bytes at payload
offsets 20 and 21, respectively, are at most 7 (for raw ≥ 8 the
decoder stores raw − 1 > 6). -/
theorem c2_decoded_bounds (packet : List Nat) (st : IntellichemState)
    (hacc : (parser_parse_status packet st).1 = true) :
    (144 ≤ (parser_parse_status packet st).2.address ∧
     (parser_parse_status packet st).2.address ≤ 158) ∧
    ((message_get_payload packet).getD 20 0 ≤ 7 →
      (parser_parse_status packet st).2.ph.tank_level ≤ 6) ∧
    ((message_get_payload packet).getD 21 0 ≤ 7 →
      (parser_parse_status packet st).2.orp.tank_level ≤ 6) := by
  rw [parser_parse_status] at hacc ⊢
  by_cases h1 : packet.length < MIN_PACKET_SIZE
  · rw [if_pos h1] at hacc
    exact absurd hacc (by simp)
  rw [if_neg h1] at hacc ⊢
  by_cases h2 : ¬ message_validate_checksum packet = true
  · rw [if_pos h2] at hacc
    exact absurd hacc (by simp)
  rw [if_neg h2] at hacc ⊢
  by_cases h3 : message_get_action packet ≠ ACTION_STATUS_RESPONSE
  · rw [if_pos h3] at hacc
    exact absurd hacc (by simp)
  rw [if_neg h3] at hacc ⊢
  by_cases h4 : message_get_source packet < INTELLICHEM_ADDRESS_MIN ∨
      INTELLICHEM_ADDRESS_MAX < message_get_source packet
  · rw [if_pos h4] at hacc
    exact absurd hacc (by simp)
  rw [if_neg h4] at hacc ⊢
  by_cases h5 : message_get_payload_len packet < STATUS_PAYLOAD_LENGTH
  · rw [if_pos h5] at hacc
    exact absurd hacc (by simp)
  rw [if_neg h5] at hacc ⊢
  rw [parser_parse_payload, if_neg h5]
  simp only [INTELLICHEM_ADDRESS_MIN, INTELLICHEM_ADDRESS_MAX] at h4
  exact ⟨⟨by show 144 ≤ message_get_source packet; omega,
          by show message_get_source packet ≤ 158; omega⟩,
         fun h20 => parse_tank_level_le_six _ h20,
         fun h21 => parse_tank_level_le_six _ h21⟩

/-- C2 witness: a fully valid status frame with all-zero payload is
accepted and its decoded record satisfies all four bounds. -/
theorem c2_decoded_bounds_witness :
    144 ≤ (parser_parse_status status_frame_basic intellichem_state_init).2.address ∧
    (parser_parse_status status_frame_basic intellichem_state_init).2.address ≤ 158 ∧
    (parser_parse_status status_frame_basic intellichem_state_init).2.ph.tank_level ≤ 6 ∧
    (parser_parse_status status_frame_basic intellichem_state_init).2.orp.tank_level ≤ 6 :=
  ⟨(c2_decoded_bounds status_frame_basic intellichem_state_init (by decide)).1.1,
   (c2_decoded_bounds status_frame_basic intellichem_state_init (by decide)).1.2,
   (c2_decoded_bounds status_frame_basic intellichem_state_init (by decide)).2.1 (by decide),
   (c2_decoded_bounds status_frame_basic intellichem_state_init (by decide)).2.2 (by decide)⟩


theorem validate_structure_facts (p : List Nat) (h : message_validate_structure p = true) :
    11 ≤ p.length ∧ p.getD 0 0 = 255 ∧ p.getD 1 0 = 0 ∧ p.getD 2 0 = 255 ∧
      p.getD 3 0 = 165 := by
  simp only [message_validate_structure] at h
  split_ifs at h with h1 h2 h3
  simp only [PREAMBLE_BYTE_1, PREAMBLE_BYTE_2, PREAMBLE_BYTE_3, HEADER_START_BYTE,
    not_or, not_not, ne_eq] at h1 h2 h3
  simp only [MIN_PACKET_SIZE] at h1
  exact ⟨by omega, h2.1, h2.2.1, h2.2.2, h3⟩

theorem validate_checksum_facts (p : List Nat) (h : message_validate_checksum p = true) :
    11 ≤ p.length ∧ message_total_length (p.getD 8 0) ≤ p.length ∧
    ((p.drop 3).take (6 + p.getD 8 0)).sum % 65536 =
      p.getD (p.length - 2) 0 * 256 + p.getD (p.length - 1) 0 := by
  simp only [message_validate_checksum] at h
  split_ifs at h with h1 h2
  simp only [MIN_PACKET_SIZE] at h1
  simp only [message_calculate_checksum, PREAMBLE_LENGTH, HEADER_LENGTH, beq_iff_eq] at h
  exact ⟨by omega, by omega, h⟩

/-- C3 counterexample: the frame `FF 00 FF A5 01 00 00 00 00 00 A6`
passes structure validation (the sub byte at offset 4 is not checked)
and checksum validation, has total length 11 + N, yet rebuilding from
its extracted destination, source, action and payload yields a
different buffer (the builder writes sub byte 0x00, checksum 0x00A5). -/
theorem c3_counterexample :
    message_validate_structure frame_sub_byte_1 = true ∧
    message_validate_checksum frame_sub_byte_1 = true ∧
    frame_sub_byte_1.length = 11 + message_get_payload_len frame_sub_byte_1 ∧
    message_build (message_get_dest frame_sub_byte_1) (message_get_source frame_sub_byte_1)
      (message_get_action frame_sub_byte_1)
      ((message_get_payload frame_sub_byte_1).take (message_get_payload_len frame_sub_byte_1))
      ≠ frame_sub_byte_1 := by
  decide

/-- C3 (amended): the build/parse round-trip identity holds for every
byte buffer of length 11+N passing structure and checksum validation
*whose header sub byte (offset 4) is zero*: `message_build` applied to
the extracted destination, source, action and payload reproduces the
buffer byte for byte.  (Without the sub-byte condition the identity
fails, since validation never inspects offset 4 but the builder always
writes 0 there.) -/
theorem c3_build_parse_roundtrip (F : List Nat)
    (hbytes : ∀ b ∈ F, b < 256)
    (hlen : F.length = 11 + message_get_payload_len F)
    (hstruct : message_validate_structure F = true)
    (hchk : message_validate_checksum F = true)
    (hsub : F.getD 4 0 = 0) :
    message_build (message_get_dest F) (message_get_source F) (message_get_action F)
      ((message_get_payload F).take (message_get_payload_len F)) = F := by
  rcases F with _ | ⟨f0, _ | ⟨f1, _ | ⟨f2, _ | ⟨f3, _ | ⟨f4, _ | ⟨f5, _ | ⟨f6, _ | ⟨f7, _ | ⟨f8, rest⟩⟩⟩⟩⟩⟩⟩⟩⟩ <;>
    first
      | (simp only [List.length_cons, List.length_nil] at hlen; omega)
      | skip
  obtain ⟨-, hf0, hf1, hf2, hf3⟩ := validate_structure_facts _ hstruct
  obtain ⟨-, -, hsum⟩ := validate_checksum_facts _ hchk
  simp only [List.getD_cons_zero, List.getD_cons_succ] at hf0 hf1 hf2 hf3 hsub
  subst hf0 hf1 hf2 hf3 hsub
  simp only [message_get_payload_len, message_get_dest, message_get_source, message_get_action,
    message_get_payload, List.getD_cons_zero, List.getD_cons_succ, List.drop_succ_cons,
    List.drop_zero] at hlen hsum ⊢
  simp only [List.length_cons] at hlen
  have hrest : rest.length = f8 + 2 := by omega
  obtain ⟨c0, c1, hcs⟩ := List.length_eq_two.mp (show (rest.drop f8).length = 2 by
    simp [hrest])
  have hsplit : rest = rest.take f8 ++ [c0, c1] := by
    conv_lhs => rw [← List.take_append_drop f8 rest]
    rw [hcs]
  set p := rest.take f8 with hp
  have hplength : p.length = f8 := by
    simp [hp, hrest]
  -- byte bounds
  have hb5 : f5 < 256 := hbytes f5 (by simp)
  have hb6 : f6 < 256 := hbytes f6 (by simp)
  have hb7 : f7 < 256 := hbytes f7 (by simp)
  have hb8 : f8 < 256 := hbytes f8 (by simp)
  have hbc0 : c0 < 256 := hbytes c0 (by rw [hsplit]; simp)
  have hbc1 : c1 < 256 := hbytes c1 (by rw [hsplit]; simp)
  -- evaluate the checksum equation
  have htake : (165 :: 0 :: f5 :: f6 :: f7 :: f8 :: rest).take (6 + f8) =
      165 :: 0 :: f5 :: f6 :: f7 :: f8 :: p := by
    have h6 : (165 :: 0 :: f5 :: f6 :: f7 :: f8 :: rest) =
        [165, 0, f5, f6, f7, f8] ++ rest := rfl
    rw [h6, show 6 + f8 = [165, 0, f5, f6, f7, f8].length + f8 by simp, List.take_append]
    rfl
  have hlen9 : (255 :: 0 :: 255 :: 165 :: 0 :: f5 :: f6 :: f7 :: f8 :: rest).length =
      f8 + 11 := by
    simp [hrest]
  have hgdc0 : rest.getD f8 0 = c0 := by
    rw [hsplit, ← hplength, List.getD_append_right _ _ _ _ le_rfl]
    simp
  have hgdc1 : rest.getD (f8 + 1) 0 = c1 := by
    rw [hsplit, ← hplength, List.getD_append_right _ _ _ _ (by omega)]
    simp
  have hgd1 : (255 :: 0 :: 255 :: 165 :: 0 :: f5 :: f6 :: f7 :: f8 :: rest).getD (f8 + 9) 0 =
      rest.getD f8 0 := by simp
  have hgd2 : (255 :: 0 :: 255 :: 165 :: 0 :: f5 :: f6 :: f7 :: f8 :: rest).getD (f8 + 10) 0 =
      rest.getD (f8 + 1) 0 := by simp
  rw [htake, hlen9, show f8 + 11 - 2 = f8 + 9 from by omega,
    show f8 + 11 - 1 = f8 + 10 from by omega, hgd1, hgd2, hgdc0, hgdc1] at hsum
  -- hsum : (165 :: 0 :: f5 :: f6 :: f7 :: f8 :: p).sum % 65536 = c0 * 256 + c1
  simp only [message_build, message_calculate_checksum, HEADER_START_BYTE, HEADER_SUB_BYTE,
    PREAMBLE_BYTE_1, PREAMBLE_BYTE_2, PREAMBLE_BYTE_3, hplength,
    Nat.mod_eq_of_lt hb5, Nat.mod_eq_of_lt hb6, Nat.mod_eq_of_lt hb7, Nat.mod_eq_of_lt hb8]
  rw [show p.take f8 = p from by rw [← hplength, List.take_length]]
  have hchksum : ([165, 0, f5, f6, f7, f8] ++ p).sum % 65536 = c0 * 256 + c1 := by
    simpa using hsum
  rw [hchksum, show (c0 * 256 + c1) / 256 = c0 from by omega,
    show (c0 * 256 + c1) % 256 = c1 from by omega, hsplit]
  simp

/-- C3 witness: the round-trip identity applied to the concrete status
request frame. -/
theorem c3_build_parse_roundtrip_witness :
    message_build (message_get_dest frame_request_144) (message_get_source frame_request_144)
      (message_get_action frame_request_144)
      ((message_get_payload frame_request_144).take (message_get_payload_len frame_request_144))
      = frame_request_144 :=
  c3_build_parse_roundtrip frame_request_144 (by decide) (by decide) (by decide) (by decide)
    (by decide)

/-- The byte-append loop of `buffer_add_bytes` keeps the most recent 512
bytes of `acc ++ D` (overwriting the oldest byte once at capacity). -/
theorem foldl_push_byte (D : List Nat) : ∀ (acc : List Nat), acc.length ≤ 512 →
    D.foldl buffer_push_byte acc = (acc ++ D).drop (acc.length + D.length - 512) := by
  induction D with
  | nil =>
    intro acc h
    simp only [List.foldl_nil, List.append_nil, List.length_nil, Nat.add_zero]
    rw [Nat.sub_eq_zero_of_le h, List.drop_zero]
  | cons b D ih =>
    intro acc h
    rw [List.foldl_cons]
    by_cases hlt : acc.length < 512
    · have hpb : buffer_push_byte acc b = acc ++ [b] := by
        simp only [buffer_push_byte, PACKET_BUFFER_CAPACITY]
        rw [if_pos hlt]
      have hlen : (acc ++ [b]).length ≤ 512 := by
        simp only [List.length_append, List.length_singleton]
        omega
      rw [hpb, ih (acc ++ [b]) hlen, List.append_assoc]
      simp only [List.singleton_append, List.length_append, List.length_singleton,
        List.length_cons]
      rw [show acc.length + ([].length + 1) + D.length - 512 =
        acc.length + (D.length + 1) - 512 from by simp; omega]
    · rcases acc with _ | ⟨a, acc'⟩
      · simp at hlt
      · have hl' : acc'.length = 511 := by
          simp only [List.length_cons] at hlt h
          omega
        have hpb : buffer_push_byte (a :: acc') b = acc' ++ [b] := by
          simp only [buffer_push_byte, PACKET_BUFFER_CAPACITY]
          rw [if_neg hlt]
          rfl
        have hlen : (acc' ++ [b]).length ≤ 512 := by
          simp only [List.length_append, List.length_singleton]
          omega
        rw [hpb, ih (acc' ++ [b]) hlen, List.append_assoc]
        simp only [List.singleton_append, List.length_append, List.length_singleton,
          List.length_cons, List.cons_append, hl']
        norm_num

/-- Reading a dropped list at `m` reads the original at `n + m`. -/
theorem getD_drop_add (l : List Nat) (n m : Nat) :
    (l.drop n).getD m 0 = l.getD (n + m) 0 := by
  rw [List.getD_eq_getD_get?, List.getD_eq_getD_get?, List.get?_drop]

/-- The scan loop returns the first preamble offset at or after `i`. -/
theorem find_preamble_go_spec (data : List Nat) (j : Nat)
    (hj : preamble_at data j = true) (hlen : j + 3 ≤ data.length) :
    ∀ (fuel i : Nat), i ≤ j → j + 1 ≤ i + fuel →
      (∀ m, i ≤ m → m < j → ¬ preamble_at data m = true) →
      find_preamble_go data i fuel = some j := by
  intro fuel
  induction fuel with
  | zero =>
    intro i h1 h2 _
    omega
  | succ n ih =>
    intro i hij hfuel hno
    rw [find_preamble_go]
    rw [if_neg (by omega)]
    by_cases hi : i = j
    · subst hi
      rw [if_pos hj]
    · rw [if_neg (hno i le_rfl (by omega))]
      exact ih (i + 1) (by omega) (by omega) (fun m hm1 hm2 => hno m (by omega) hm2)

/-- `buffer_find_preamble` returns the first preamble offset. -/
theorem buffer_find_preamble_spec (data : List Nat) (j : Nat)
    (hj : preamble_at data j = true) (hlen : j + 3 ≤ data.length)
    (hno : ∀ m, m < j → ¬ preamble_at data m = true) :
    buffer_find_preamble data 0 = some j := by
  rw [buffer_find_preamble, if_neg (by omega)]
  exact find_preamble_go_spec data j hj hlen (data.length - 0) 0 (by omega) (by omega)
    (fun m _ hm => hno m hm)

/-- A structurally valid frame appended after garbage puts a preamble at
the garbage boundary. -/
theorem preamble_at_of_frame (G F : List Nat)
    (h0 : F.getD 0 0 = 255) (h1 : F.getD 1 0 = 0) (h2 : F.getD 2 0 = 255) :
    preamble_at (G ++ F) G.length = true := by
  have e0 : (G ++ F).getD G.length 0 = F.getD 0 0 := by
    rw [List.getD_append_right _ _ _ _ le_rfl, Nat.sub_self]
  have e1 : (G ++ F).getD (G.length + 1) 0 = F.getD 1 0 := by
    rw [List.getD_append_right _ _ _ _ (by omega), Nat.add_sub_cancel_left]
  have e2 : (G ++ F).getD (G.length + 2) 0 = F.getD 2 0 := by
    rw [List.getD_append_right _ _ _ _ (by omega), Nat.add_sub_cancel_left]
  rw [preamble_at, e0, e1, e2, h0, h1, h2]
  decide

/-- No preamble occurs at offsets lying fully inside a preamble-free
garbage prefix. -/
theorem no_preamble_within (G F : List Nat)
    (hG : ∀ i, i + 3 ≤ G.length →
      ¬(G.getD i 0 = 255 ∧ G.getD (i + 1) 0 = 0 ∧ G.getD (i + 2) 0 = 255))
    (m : Nat) (hm : m + 3 ≤ G.length) : ¬ preamble_at (G ++ F) m = true := by
  intro h
  rw [preamble_at, List.getD_append _ _ _ _ (by omega), List.getD_append _ _ _ _ (by omega),
    List.getD_append _ _ _ _ (by omega)] at h
  simp only [Bool.and_eq_true, beq_iff_eq, PREAMBLE_BYTE_1, PREAMBLE_BYTE_2,
    PREAMBLE_BYTE_3] at h
  exact hG m hm ⟨h.1.1, h.1.2, h.2⟩

/-- When the buffer holds exactly one valid frame of total length at
most 64, the loop tail extracts it, empties the buffer and counts one
packet. -/
theorem buffer_get_packet_attempt_exact (F : List Nat) (s : BufferStats)
    (hst : message_validate_structure F = true)
    (hck : message_validate_checksum F = true)
    (hfl : F.length = 11 + F.getD 8 0)
    (hcap : F.length ≤ 64) :
    buffer_get_packet_attempt 64 ⟨F, s⟩ =
      .done (some F) ⟨[], { s with packets_received := s.packets_received + 1 }⟩ := by
  obtain ⟨hlen11, h0, h1, h2, h3⟩ := validate_structure_facts F hst
  have hpl : message_total_length (F.getD 8 0) = F.length := by
    rw [message_total_length]
    omega
  simp only [buffer_get_packet_attempt]
  rw [if_neg (by simp only [MIN_PACKET_SIZE]; omega)]
  rw [if_neg (by simp only [HEADER_START_BYTE]; omega)]
  rw [hpl]
  rw [if_neg (by simp only [MAX_PACKET_SIZE]; omega)]
  rw [if_neg (by omega)]
  rw [if_neg (by omega)]
  rw [List.take_length F, if_pos hck, List.drop_length F]

/-- One loop pass over preamble-free garbage (whose last two bytes are
not `FF 00`) followed by a valid frame extracts the frame, with one
resync exactly when the garbage is nonempty. -/
theorem buffer_get_packet_step_clean (G F : List Nat) (s : BufferStats)
    (hG : ∀ i, i + 3 ≤ G.length →
      ¬(G.getD i 0 = 255 ∧ G.getD (i + 1) 0 = 0 ∧ G.getD (i + 2) 0 = 255))
    (hnb : ¬(2 ≤ G.length ∧ G.getD (G.length - 2) 0 = 255 ∧ G.getD (G.length - 1) 0 = 0))
    (hst : message_validate_structure F = true)
    (hck : message_validate_checksum F = true)
    (hfl : F.length = 11 + F.getD 8 0)
    (hcap : F.length ≤ 64) :
    buffer_get_packet_step 64 ⟨G ++ F, s⟩ =
      .done (some F)
        ⟨[], { s with
               packets_received := s.packets_received + 1
               preamble_syncs := s.preamble_syncs + (if 0 < G.length then 1 else 0) }⟩ := by
  obtain ⟨hl11, h0, h1, h2, h3⟩ := validate_structure_facts F hst
  rw [buffer_get_packet_step]
  rw [if_neg (by simp only [MIN_PACKET_SIZE, List.length_append]; omega)]
  have hfind : buffer_find_preamble (G ++ F) 0 = some G.length := by
    apply buffer_find_preamble_spec
    · exact preamble_at_of_frame G F h0 h1 h2
    · simp only [List.length_append]
      omega
    · intro m hm
      by_cases hmin : m + 3 ≤ G.length
      · exact no_preamble_within G F hG m hmin
      · intro h
        rw [preamble_at] at h
        simp only [Bool.and_eq_true, beq_iff_eq, PREAMBLE_BYTE_1, PREAMBLE_BYTE_2,
          PREAMBLE_BYTE_3] at h
        by_cases hm2 : m + 2 = G.length
        · apply hnb
          refine ⟨by omega, ?_, ?_⟩
          · have hx := h.1.1
            rw [List.getD_append _ _ _ _ (by omega)] at hx
            rw [show G.length - 2 = m from by omega]
            exact hx
          · have hx := h.1.2
            rw [List.getD_append _ _ _ _ (by omega)] at hx
            rw [show G.length - 1 = m + 1 from by omega]
            exact hx
        · have hm1 : m + 1 = G.length := by omega
          have hx := h.1.2
          rw [List.getD_append_right _ _ _ _ (by omega),
            show m + 1 - G.length = 0 from by omega, h0] at hx
          exact absurd hx (by omega)
  simp only [hfind]
  by_cases hg0 : 0 < G.length
  · rw [if_pos hg0]
    rw [if_pos hg0, show (G ++ F).drop G.length = F from List.drop_left G F]
    rw [buffer_get_packet_attempt_exact F _ hst hck hfl hcap]
  · rw [if_neg hg0, if_neg hg0]
    obtain rfl := List.length_eq_zero.mp (by omega : G.length = 0)
    rw [List.nil_append]
    rw [buffer_get_packet_attempt_exact F _ hst hck hfl hcap]
    simp

/-- One loop pass over a stray zero byte followed by a valid frame
extracts the frame with one resync. -/
theorem buffer_get_packet_step_zero_cons (F : List Nat) (s : BufferStats)
    (hst : message_validate_structure F = true)
    (hck : message_validate_checksum F = true)
    (hfl : F.length = 11 + F.getD 8 0)
    (hcap : F.length ≤ 64) :
    buffer_get_packet_step 64 ⟨0 :: F, s⟩ =
      .done (some F)
        ⟨[], { s with
               packets_received := s.packets_received + 1
               preamble_syncs := s.preamble_syncs + 1 }⟩ := by
  obtain ⟨hl11, h0, h1, h2, h3⟩ := validate_structure_facts F hst
  rw [buffer_get_packet_step]
  rw [if_neg (by simp only [MIN_PACKET_SIZE, List.length_cons]; omega)]
  have hpa1 : preamble_at (0 :: F) 1 = true := by
    have e0 : (0 :: F).getD 1 0 = F.getD 0 0 := rfl
    have e1 : (0 :: F).getD 2 0 = F.getD 1 0 := rfl
    have e2 : (0 :: F).getD 3 0 = F.getD 2 0 := rfl
    rw [preamble_at, e0, e1, e2, h0, h1, h2]
    decide
  have hfind : buffer_find_preamble (0 :: F) 0 = some 1 := by
    apply buffer_find_preamble_spec _ _ hpa1 (by simp only [List.length_cons]; omega)
    intro m hm
    obtain rfl : m = 0 := by omega
    intro h
    rw [preamble_at] at h
    simp only [List.getD_cons_zero, Bool.and_eq_true, beq_iff_eq, PREAMBLE_BYTE_1] at h
    exact absurd h.1.1 (by omega)
  simp only [hfind]
  rw [if_pos (by omega : 1 > 0)]
  rw [show (0 :: F).drop 1 = F from rfl]
  rw [buffer_get_packet_attempt_exact F _ hst hck hfl hcap]

/-- When the garbage ends in `FF 00`, the first loop pass locks onto
the boundary preamble (`FF 00` + the frame's first `FF`), rejects its
header byte, and continues with a stray zero byte before the frame. -/
theorem buffer_get_packet_step_boundary (G F : List Nat) (s : BufferStats)
    (hG : ∀ i, i + 3 ≤ G.length →
      ¬(G.getD i 0 = 255 ∧ G.getD (i + 1) 0 = 0 ∧ G.getD (i + 2) 0 = 255))
    (hb2 : 2 ≤ G.length) (hbx : G.getD (G.length - 2) 0 = 255)
    (hby : G.getD (G.length - 1) 0 = 0)
    (hst : message_validate_structure F = true)
    (hck : message_validate_checksum F = true)
    (hfl : F.length = 11 + F.getD 8 0)
    (hcap : F.length ≤ 64) :
    buffer_get_packet_step 64 ⟨G ++ F, s⟩ =
      .again ⟨0 :: F, { s with
        preamble_syncs := s.preamble_syncs + (if 2 < G.length then 1 else 0) }⟩ := by
  obtain ⟨hl11, h0, h1, h2, h3⟩ := validate_structure_facts F hst
  rw [buffer_get_packet_step]
  rw [if_neg (by simp only [MIN_PACKET_SIZE, List.length_append]; omega)]
  have hpa : preamble_at (G ++ F) (G.length - 2) = true := by
    have e0 : (G ++ F).getD (G.length - 2) 0 = G.getD (G.length - 2) 0 :=
      List.getD_append _ _ _ _ (by omega)
    have e1 : (G ++ F).getD (G.length - 2 + 1) 0 = G.getD (G.length - 1) 0 := by
      rw [List.getD_append _ _ _ _ (by omega), show G.length - 2 + 1 = G.length - 1 from
        by omega]
    have e2 : (G ++ F).getD (G.length - 2 + 2) 0 = F.getD 0 0 := by
      rw [show G.length - 2 + 2 = G.length from by omega,
        List.getD_append_right _ _ _ _ le_rfl, Nat.sub_self]
    rw [preamble_at, e0, e1, e2, hbx, hby, h0]
    decide
  have hfind : buffer_find_preamble (G ++ F) 0 = some (G.length - 2) := by
    apply buffer_find_preamble_spec _ _ hpa (by simp only [List.length_append]; omega)
    intro m hm
    exact no_preamble_within G F hG m (by omega)
  simp only [hfind]
  -- the two trailing garbage bytes are 255 and 0
  have hdrop2 : (G ++ F).drop (G.length - 2) = 255 :: 0 :: F := by
    rw [List.drop_append_eq_append_drop]
    rw [show G.length - 2 - G.length = 0 from by omega]
    rw [List.drop_zero]
    obtain ⟨a, b, hab⟩ := List.length_eq_two.mp
      (show (G.drop (G.length - 2)).length = 2 by simp only [List.length_drop]; omega)
    have ha : a = 255 := by
      have hx := getD_drop_add G (G.length - 2) 0
      rw [hab, Nat.add_zero] at hx
      rw [show ([a, b].getD 0 0) = a from rfl] at hx
      rw [hx, hbx]
    have hbv : b = 0 := by
      have hx := getD_drop_add G (G.length - 2) 1
      rw [hab, show G.length - 2 + 1 = G.length - 1 from by omega] at hx
      rw [show ([a, b].getD 1 0) = b from rfl] at hx
      rw [hx, hby]
    rw [hab, ha, hbv]
    rfl
  by_cases hg2 : 2 < G.length
  · rw [if_pos (by omega : G.length - 2 > 0), hdrop2]
    rw [buffer_get_packet_attempt]
    rw [if_neg (by simp only [MIN_PACKET_SIZE, List.length_cons]; omega)]
    rw [if_pos (by
      rw [show (255 :: 0 :: F).getD 3 0 = F.getD 1 0 from rfl, h1]
      simp only [HEADER_START_BYTE]
      omega)]
    rw [if_pos hg2]
    rfl
  · have hg2' : G.length = 2 := by omega
    rw [if_neg (by omega : ¬ G.length - 2 > 0)]
    have hGF : G ++ F = 255 :: 0 :: F := by
      have := hdrop2
      rw [show G.length - 2 = 0 from by omega, List.drop_zero] at this
      exact this
    rw [hGF]
    rw [buffer_get_packet_attempt]
    rw [if_neg (by simp only [MIN_PACKET_SIZE, List.length_cons]; omega)]
    rw [if_pos (by
      rw [show (255 :: 0 :: F).getD 3 0 = F.getD 1 0 from rfl, h1]
      simp only [HEADER_START_BYTE]
      omega)]
    rw [if_neg hg2]
    rfl

/-- The full loop on preamble-free garbage followed by one valid frame
of total length at most 64 yields exactly that frame, empties the
buffer, counts one packet, and resyncs 0, 1 or 2 times depending on the
garbage (2 only when the garbage ends in `FF 00`). -/
theorem buffer_get_packet_go_extract (G F : List Nat) (s : BufferStats) (fuel : Nat)
    (hfuel : 2 ≤ fuel)
    (hG : ∀ i, i + 3 ≤ G.length →
      ¬(G.getD i 0 = 255 ∧ G.getD (i + 1) 0 = 0 ∧ G.getD (i + 2) 0 = 255))
    (hst : message_validate_structure F = true)
    (hck : message_validate_checksum F = true)
    (hfl : F.length = 11 + F.getD 8 0)
    (hcap : F.length ≤ 64) :
    buffer_get_packet_go 64 fuel ⟨G ++ F, s⟩ =
      (some F, ⟨[], { s with
        packets_received := s.packets_received + 1
        preamble_syncs := s.preamble_syncs +
          (if 2 ≤ G.length ∧ G.getD (G.length - 2) 0 = 255 ∧ G.getD (G.length - 1) 0 = 0
           then (if 2 < G.length then 2 else 1)
           else (if 0 < G.length then 1 else 0)) }⟩) := by
  obtain ⟨m, rfl⟩ : ∃ m, fuel = m + 2 := ⟨fuel - 2, by omega⟩
  have e1 : ∀ (k : Nat) (b : PacketBuffer), buffer_get_packet_go 64 (k + 1) b =
      match buffer_get_packet_step 64 b with
      | .done r b' => (r, b')
      | .again b' => buffer_get_packet_go 64 k b' := fun _ _ => rfl
  by_cases hb : 2 ≤ G.length ∧ G.getD (G.length - 2) 0 = 255 ∧ G.getD (G.length - 1) 0 = 0
  · rw [show m + 2 = (m + 1) + 1 from rfl, e1]
    rw [buffer_get_packet_step_boundary G F s hG hb.1 hb.2.1 hb.2.2 hst hck hfl hcap]
    dsimp only
    rw [e1]
    rw [buffer_get_packet_step_zero_cons F _ hst hck hfl hcap]
    dsimp only
    rw [if_pos hb]
    by_cases hg2 : 2 < G.length
    · rw [if_pos hg2, if_pos hg2]
    · rw [if_neg hg2, if_neg hg2]
  · rw [show m + 2 = (m + 1) + 1 from rfl, e1]
    rw [buffer_get_packet_step_clean G F s hG hb hst hck hfl hcap]
    dsimp only
    rw [if_neg hb]

/-- Pushing a chunk into a freshly initialized buffer leaves the most
recent 512 bytes and touches neither the packet nor the resync
counters. -/
theorem buffer_add_bytes_init_spec (D : List Nat) :
    (buffer_add_bytes buffer_init_state D).data = D.drop (D.length - 512) ∧
    (buffer_add_bytes buffer_init_state D).stats.packets_received = 0 ∧
    (buffer_add_bytes buffer_init_state D).stats.preamble_syncs = 0 := by
  by_cases hD : D.length = 0
  · obtain rfl := List.length_eq_zero.mp hD
    refine ⟨rfl, rfl, rfl⟩
  · simp only [buffer_add_bytes, buffer_init_state, if_neg hD]
    have hstart : (if ([] : List Nat).length + D.length > PACKET_BUFFER_CAPACITY ∧
        ([] : List Nat).length > 64 then
          ([] : List Nat).drop (([] : List Nat).length - 64) else ([] : List Nat)) = [] := by
      split_ifs <;> rfl
    refine ⟨?_, ?_, ?_⟩
    · simp only [hstart]
      rw [foldl_push_byte D [] (by simp)]
      simp
    · split_ifs <;> rfl
    · split_ifs <;> rfl

set_option maxRecDepth 10000 in
/-- C7 counterexample: a frame of total length 65 (payload length 54)
passes structure and checksum validation, yet pushing `AA BB` followed
by that frame into an empty resynchronizer and calling
`try_take_frame` yields *no* frame — `buffer_get_packet` skips any
packet longer than `MAX_PACKET_SIZE` (64), so the claim quantifying
over every validated frame is false. -/
theorem c7_counterexample :
    message_validate_structure frame_payload_54 = true ∧
    message_validate_checksum frame_payload_54 = true ∧
    frame_payload_54.length = 11 + message_get_payload_len frame_payload_54 ∧
    (buffer_get_packet (buffer_add_bytes buffer_init_state ([170, 187] ++ frame_payload_54))
      64).1 = none := by
  decide

/-- An empty buffer yields no frame. -/
theorem buffer_get_packet_empty (s : BufferStats) :
    (buffer_get_packet ⟨[], s⟩ 64).1 = none := rfl

/-- C7 (amended): for every byte sequence G not containing the
three-byte preamble and every frame F that passes structure and
checksum validation, has total length 11+N *and at most 64 bytes*
(the resynchronizer's packet cap), pushing G followed by F into an
empty resynchronizer and calling `try_take_frame` yields exactly one
frame, equal to F, leaving zero pending bytes (a second call yields
nothing); in the concrete instance G = AA BB the resync counter
increments by exactly one. -/
theorem c7_resync_after_garbage (G F : List Nat)
    (hG : ∀ i, i + 3 ≤ G.length →
      ¬(G.getD i 0 = 255 ∧ G.getD (i + 1) 0 = 0 ∧ G.getD (i + 2) 0 = 255))
    (hst : message_validate_structure F = true)
    (hck : message_validate_checksum F = true)
    (hfl : F.length = 11 + message_get_payload_len F)
    (hcap : F.length ≤ 64) :
    (buffer_get_packet (buffer_add_bytes buffer_init_state (G ++ F)) 64).1 = some F ∧
    buffer_pending_bytes (buffer_get_packet
      (buffer_add_bytes buffer_init_state (G ++ F)) 64).2 = 0 ∧
    (buffer_get_packet (buffer_add_bytes buffer_init_state (G ++ F)) 64).2.stats.packets_received
      = 1 ∧
    (buffer_get_packet ((buffer_get_packet
      (buffer_add_bytes buffer_init_state (G ++ F)) 64).2) 64).1 = none ∧
    (G = [170, 187] →
      (buffer_get_packet (buffer_add_bytes buffer_init_state (G ++ F)) 64).2.stats.preamble_syncs
        = 1) := by
  have hfl' : F.length = 11 + F.getD 8 0 := hfl
  obtain ⟨hl11, h0, h1, h2, h3⟩ := validate_structure_facts F hst
  obtain ⟨hdata, hp0, hs0⟩ := buffer_add_bytes_init_spec (G ++ F)
  set buf := buffer_add_bytes buffer_init_state (G ++ F) with hbuf
  -- the buffered content is a suffix of G followed by F
  have hk : (G ++ F).length - 512 ≤ G.length := by
    simp only [List.length_append]
    omega
  have hdata' : buf.data = G.drop ((G ++ F).length - 512) ++ F := by
    rw [hdata, List.drop_append_eq_append_drop,
      Nat.sub_eq_zero_of_le hk, List.drop_zero]
  set k := (G ++ F).length - 512 with hkdef
  set G' := G.drop k with hG'
  have hG'no : ∀ i, i + 3 ≤ G'.length →
      ¬(G'.getD i 0 = 255 ∧ G'.getD (i + 1) 0 = 0 ∧ G'.getD (i + 2) 0 = 255) := by
    intro i hi
    rw [hG', getD_drop_add, getD_drop_add, getD_drop_add]
    rw [show k + (i + 1) = (k + i) + 1 from by omega,
      show k + (i + 2) = (k + i) + 2 from by omega]
    apply hG
    simp only [hG', List.length_drop] at hi
    omega
  have hfuel : 2 ≤ (G' ++ F).length + 1 := by
    simp only [List.length_append]
    omega
  have hrun : buffer_get_packet buf 64 =
      (some F, ⟨[], { buf.stats with
        packets_received := buf.stats.packets_received + 1
        preamble_syncs := buf.stats.preamble_syncs +
          (if 2 ≤ G'.length ∧ G'.getD (G'.length - 2) 0 = 255 ∧ G'.getD (G'.length - 1) 0 = 0
           then (if 2 < G'.length then 2 else 1)
           else (if 0 < G'.length then 1 else 0)) }⟩) := by
    have hb2 : buf = ⟨G' ++ F, buf.stats⟩ := by
      rw [← hdata']
    rw [hb2, buffer_get_packet]
    dsimp only
    exact buffer_get_packet_go_extract G' F buf.stats ((G' ++ F).length + 1) hfuel
      hG'no hst hck hfl' hcap
  rw [hrun]
  refine ⟨rfl, rfl, by rw [hp0], ?_, ?_⟩
  · exact buffer_get_packet_empty _
  · intro hGeq
    rw [hs0]
    have hk2 : k = 0 := by
      subst hGeq
      simp only [hkdef, List.length_append, List.length_cons, List.length_nil]
      omega
    subst hGeq
    rw [hG', hk2]
    simp

/-- C8: overflow policy of the 512-byte buffer.  For every buffer
state (at most 512 bytes, the structural invariant) and pushed chunk:
when count + len exceeds 512, `buffer_add_bytes` increments the
overflow counter by one and keeps, of all but the most recent 64
buffered bytes, nothing — the new content is the trailing 512 bytes of
(last 64 of old content) ++ chunk — and afterwards holds at most 512
bytes; when count + len ≤ 512 nothing is discarded and the counter is
unchanged. -/
theorem c8_overflow_policy (buf : PacketBuffer) (D : List Nat) (hcap : buf.data.length ≤ 512) :
    (512 < buf.data.length + D.length →
      (buffer_add_bytes buf D).stats.buffer_overflows = buf.stats.buffer_overflows + 1 ∧
      (buffer_add_bytes buf D).data = lastN 512 (lastN 64 buf.data ++ D) ∧
      (buffer_add_bytes buf D).data.length ≤ 512) ∧
    (buf.data.length + D.length ≤ 512 →
      (buffer_add_bytes buf D).stats.buffer_overflows = buf.stats.buffer_overflows ∧
      (buffer_add_bytes buf D).data = buf.data ++ D) := by
  by_cases hD : D.length = 0
  · obtain rfl := List.length_eq_zero.mp hD
    constructor
    · intro ho
      omega
    · intro _
      simp [buffer_add_bytes]
  constructor
  · intro hover
    have hov : buf.data.length + D.length > PACKET_BUFFER_CAPACITY := by
      simp only [PACKET_BUFFER_CAPACITY]
      omega
    have hstart : (if buf.data.length + D.length > PACKET_BUFFER_CAPACITY ∧
        buf.data.length > 64 then buf.data.drop (buf.data.length - 64) else buf.data) =
        lastN 64 buf.data := by
      rw [lastN]
      by_cases h64 : buf.data.length > 64
      · rw [if_pos ⟨hov, h64⟩]
      · rw [if_neg (by tauto), Nat.sub_eq_zero_of_le (by omega), List.drop_zero]
    have hslen : (lastN 64 buf.data).length ≤ 512 := by
      simp only [lastN, List.length_drop]
      omega
    refine ⟨?_, ?_, ?_⟩
    · simp only [buffer_add_bytes, if_neg hD]
      rw [if_pos hov]
    · simp only [buffer_add_bytes, if_neg hD]
      rw [hstart, foldl_push_byte D _ hslen]
      simp only [lastN, List.length_append]
    · simp only [buffer_add_bytes, if_neg hD]
      rw [hstart, foldl_push_byte D _ hslen]
      simp only [List.length_drop, List.length_append]
      omega
  · intro hle
    have hov : ¬ buf.data.length + D.length > PACKET_BUFFER_CAPACITY := by
      simp only [PACKET_BUFFER_CAPACITY]
      omega
    have hstart : (if buf.data.length + D.length > PACKET_BUFFER_CAPACITY ∧
        buf.data.length > 64 then buf.data.drop (buf.data.length - 64) else buf.data) =
        buf.data := by
      rw [if_neg (by tauto)]
    constructor
    · simp only [buffer_add_bytes, if_neg hD]
      rw [if_neg hov]
    · simp only [buffer_add_bytes, if_neg hD]
      rw [hstart, foldl_push_byte D _ hcap, Nat.sub_eq_zero_of_le hle, List.drop_zero]

/-- C7 witness: pushing `AA BB` followed by the concrete status request
frame extracts exactly that frame with one resync. -/
theorem c7_resync_after_garbage_witness :
    (buffer_get_packet (buffer_add_bytes buffer_init_state
      ([170, 187] ++ frame_request_144)) 64).1 = some frame_request_144 ∧
    buffer_pending_bytes (buffer_get_packet (buffer_add_bytes buffer_init_state
      ([170, 187] ++ frame_request_144)) 64).2 = 0 ∧
    (buffer_get_packet (buffer_add_bytes buffer_init_state
      ([170, 187] ++ frame_request_144)) 64).2.stats.packets_received = 1 ∧
    (buffer_get_packet ((buffer_get_packet (buffer_add_bytes buffer_init_state
      ([170, 187] ++ frame_request_144)) 64).2) 64).1 = none ∧
    ([170, 187] = [170, 187] →
      (buffer_get_packet (buffer_add_bytes buffer_init_state
        ([170, 187] ++ frame_request_144)) 64).2.stats.preamble_syncs = 1) :=
  c7_resync_after_garbage [170, 187] frame_request_144
    (by intro i hi; simp only [List.length_cons, List.length_nil] at hi; omega)
    (by decide) (by decide) (by decide) (by decide)

set_option maxRecDepth 10000 in
/-- C8 witness: pushing one byte into a full 512-byte buffer triggers
the overflow policy. -/
theorem c8_overflow_policy_witness :
    (buffer_add_bytes ⟨List.replicate 512 7, ⟨0, 0, 0, 0, 0⟩⟩ [1]).stats.buffer_overflows =
      (⟨List.replicate 512 7, ⟨0, 0, 0, 0, 0⟩⟩ : PacketBuffer).stats.buffer_overflows + 1 ∧
    (buffer_add_bytes ⟨List.replicate 512 7, ⟨0, 0, 0, 0, 0⟩⟩ [1]).data =
      lastN 512 (lastN 64 (List.replicate 512 7) ++ [1]) ∧
    (buffer_add_bytes ⟨List.replicate 512 7, ⟨0, 0, 0, 0, 0⟩⟩ [1]).data.length ≤ 512 :=
  (c8_overflow_policy ⟨List.replicate 512 7, ⟨0, 0, 0, 0, 0⟩⟩ [1] (by decide)).1 (by decide)

end Intellichem
